import Mathlib

/-!
Shallow embedding of the drift-detection and evaluation subsystem of the
Migraine_CICD repository (src/scripts/check_model_drift.py and
src/scripts/evaluate_models.py).

Numeric samples are modelled as lists of rationals; the real-valued PSI score
(which involves a natural logarithm) lives in `ℝ`.  Pandas dataframes are
modelled as ordered lists of named columns, each carrying a `numeric` dtype
flag; operations that raise `TypeError` on a non-numeric column (numpy
percentile, pandas `.mean()`/`.std()` fed to `float(...)`) are modelled with
`Except String`.  Column names of a dataframe are assumed unique, as pandas
guarantees for loaded CSV data.
-/

namespace Migraine

/-! ## evaluate_models.py : ModelEvaluator -/

/-- Classification metric dictionary as built by `evaluate_classification`
(`accuracy`, `precision`, `recall`, `f1`); `detect_overfitting` reads only
`accuracy` and `f1`, so only those two keys are carried. -/
structure ClsMetrics where
  accuracy : ℚ
  f1 : ℚ
deriving DecidableEq

/-- `ModelEvaluator.get_recommendation`: fixed lookup table from fit status to
advice text, with a default for unknown keys. -/
def get_recommendation (status : String) : String :=
  if status = "OVERFITTING" then
    "Consider: 1) Regularization, 2) More training data, 3) Reduce model complexity, 4) Cross-validation"
  else if status = "UNDERFITTING" then
    "Consider: 1) More complex model, 2) More features, 3) Feature engineering, 4) Remove regularization"
  else if status = "GOOD_FIT" then
    "Model is performing well! Continue monitoring."
  else
    "No specific recommendation"

/-- Result dictionary of `ModelEvaluator.detect_overfitting`. -/
structure FitVerdict where
  status : String
  severity : String
  accuracy_gap : ℚ
  f1_gap : ℚ
  recommendation : String
deriving DecidableEq

/-- `ModelEvaluator.detect_overfitting` (classification variant).  The Python
default for `threshold` is `0.10`; severity of an overfitting verdict is
decided from `accuracy_gap` alone (`"HIGH" if accuracy_gap > 0.15 else
"MEDIUM"`). -/
def detect_overfitting (train_metrics test_metrics : ClsMetrics) (threshold : ℚ) : FitVerdict :=
  let accuracy_gap := train_metrics.accuracy - test_metrics.accuracy
  let f1_gap := train_metrics.f1 - test_metrics.f1
  let sp :=
    if accuracy_gap > threshold ∨ f1_gap > threshold then
      ("OVERFITTING", if accuracy_gap > 15/100 then "HIGH" else "MEDIUM")
    else if test_metrics.accuracy < 60/100 then
      ("UNDERFITTING", if test_metrics.accuracy < 50/100 then "HIGH" else "MEDIUM")
    else
      ("GOOD_FIT", "NONE")
  { status := sp.1
    severity := sp.2
    accuracy_gap := accuracy_gap
    f1_gap := f1_gap
    recommendation := get_recommendation sp.1 }

/-! ## check_model_drift.py : DriftDetector.calculate_psi -/

/-- Insert a value into a (sorted) list, keeping it sorted; building block of
the comparison sort used to model `np.percentile`'s internal sort. -/
def sortedInsert (x : ℚ) : List ℚ → List ℚ
  | [] => [x]
  | y :: ys => if x ≤ y then x :: y :: ys else y :: sortedInsert x ys

/-- Ascending sort of a sample, as done inside `np.percentile`. -/
def sortList (l : List ℚ) : List ℚ := l.foldr sortedInsert []

/-- `np.percentile(sample, q)` with the default linear interpolation:
`rank = q/100 * (n-1)`, linearly interpolating between the two neighbouring
order statistics. -/
def percentileQ (sample : List ℚ) (q : ℚ) : ℚ :=
  let s := sortList sample
  let n := s.length
  let rank := q / 100 * ((n : ℚ) - 1)
  let i := (⌊rank⌋).toNat
  let lo := s.getD i 0
  let hi := s.getD (i + 1) lo
  lo + (rank - ⌊rank⌋) * (hi - lo)

/-- `np.unique`: sort and remove duplicates. -/
def uniqueQ (l : List ℚ) : List ℚ := (sortList l).dedup

/-- The deduplicated percentile breakpoints built from the reference sample:
`np.unique(np.percentile(reference, np.linspace(0, 100, bins + 1)))`.
For `bins = 0`, `np.linspace(0, 100, 1)` is `[0.0]`, which the rational
division `100 * k / 0 = 0` reproduces. -/
def breakpointsOf (reference : List ℚ) (bins : ℕ) : List ℚ :=
  uniqueQ ((List.range (bins + 1)).map
    (fun k : ℕ => percentileQ reference (100 * (k : ℚ) / (bins : ℚ))))

/-- `np.histogram(data, bins=bps)`: bin `i` is the half-open interval
`[bps[i], bps[i+1])`, except the last bin, which is closed. -/
def histCounts (data : List ℚ) (bps : List ℚ) : List ℕ :=
  (List.range (bps.length - 1)).map (fun i =>
    let lo := bps.getD i 0
    let hi := bps.getD (i + 1) 0
    if i + 2 = bps.length then
      (data.filter (fun x => decide (lo ≤ x) && decide (x ≤ hi))).length
    else
      (data.filter (fun x => decide (lo ≤ x) && decide (x < hi))).length)

/-- The smoothing constant `epsilon = 0.0001` of `calculate_psi`. -/
def epsilonPSI : ℚ := 1 / 10000

/-- Smoothed proportions: `(counts + epsilon) / (len(sample) + epsilon * bins)`;
note the denominator uses the `bins` argument, not the deduplicated bin
count. -/
def toProps (counts : List ℕ) (sampleLen : ℕ) (bins : ℕ) : List ℚ :=
  counts.map (fun c : ℕ =>
    ((c : ℚ) + epsilonPSI) / ((sampleLen : ℚ) + epsilonPSI * (bins : ℚ)))

/-- `np.sum((curr_props - ref_props) * np.log(curr_props / ref_props))`,
summed over the paired bins. -/
noncomputable def psiSum : List ℚ → List ℚ → ℝ
  | c :: cs, r :: rs => (((c : ℝ)) - (r : ℝ)) * Real.log ((c : ℝ) / (r : ℝ)) + psiSum cs rs
  | _, _ => 0

/-- Body of the `try:` block of `calculate_psi`.  `np.percentile` raises on an
empty sample (the only exception source for rational-valued samples), modelled
as `Except.error`; fewer than 3 unique breakpoints is a normal `return 0.0`. -/
noncomputable def psiTry (reference current : List ℚ) (bins : ℕ) : Except String ℝ :=
  if reference.isEmpty then
    Except.error "TypeError: percentile of an empty sample"
  else
    let breakpoints := breakpointsOf reference bins
    if breakpoints.length < 3 then
      Except.ok 0
    else
      let refCounts := histCounts reference breakpoints
      let currCounts := histCounts current breakpoints
      let refProps := toProps refCounts reference.length bins
      let currProps := toProps currCounts current.length bins
      Except.ok (psiSum currProps refProps)

/-- `DriftDetector.calculate_psi`: the `try/except` wrapper that turns any
exception into the neutral value `0.0`.  The Python default for `bins`
is `10`. -/
noncomputable def calculate_psi (reference current : List ℚ) (bins : ℕ) : ℝ :=
  match psiTry reference current bins with
  | Except.ok v => v
  | Except.error _ => 0

/-! ## check_model_drift.py : dataframes and the drift detectors -/

/-- A pandas column: its name, its dtype class (`numeric` is the result of
`pd.api.types.is_numeric_dtype`), and its values.  Values are carried as
rationals even for a non-numeric column; numeric operations on a non-numeric
column raise `TypeError`, which the embedding models through `Except`. -/
structure Column where
  name : String
  numeric : Bool
  values : List ℚ
deriving DecidableEq

/-- A dataframe: the ordered list of its columns.  Column names are unique in
a pandas dataframe loaded from CSV. -/
abbrev DataFrame := List Column

/-- Look a column up by name (`df[name]`). -/
def findCol (df : DataFrame) (n : String) : Option Column :=
  df.find? (fun c => c.name == n)

/-- The designated label column of this project. -/
def target_col : String := "migraine_occurrence"

/-- The `common_cols` list of `detect_feature_drift` and
`detect_statistical_drift`: columns of the current dataframe, in order, that
also exist in the reference dataframe and are not the label column. -/
def commonCols (referenceData currentData : DataFrame) : List Column :=
  currentData.filter (fun c => (findCol referenceData c.name).isSome && (c.name != target_col))

/-- The columns actually analyzed: the loop skips a common column exactly when
`current_data[col]` is non-numeric — the dtype of the reference column is
never inspected. -/
def analyzedCols (referenceData currentData : DataFrame) : List Column :=
  (commonCols referenceData currentData).filter (fun c => c.numeric)

/-- Arithmetic mean of a sample (`Series.mean()`). -/
def meanQ (l : List ℚ) : ℚ := l.sum / (l.length : ℚ)

/-- Sample variance with the pandas default `ddof = 1`. -/
def varianceQ (l : List ℚ) : ℚ :=
  if l.length ≤ 1 then 0
  else (l.map (fun x => (x - meanQ l) ^ 2)).sum / ((l.length : ℚ) - 1)

/-- Sample standard deviation (`Series.std()`). -/
noncomputable def stdQ (l : List ℚ) : ℝ := Real.sqrt (varianceQ l)

/-- `float(series.mean())`: raises `TypeError` on a non-numeric column. -/
def colMean (c : Column) : Except String ℚ :=
  if c.numeric then Except.ok (meanQ c.values)
  else Except.error ("TypeError: could not compute mean of non-numeric column " ++ c.name)

/-- `float(series.std())`: raises `TypeError` on a non-numeric column. -/
noncomputable def colStd (c : Column) : Except String ℝ :=
  if c.numeric then Except.ok (stdQ c.values)
  else Except.error ("TypeError: could not compute std of non-numeric column " ++ c.name)

/-- The PSI of a reference/current column pair as `detect_feature_drift`
computes it (with the default `bins = 10`): when the reference column is
non-numeric, `np.percentile` raises inside `calculate_psi`'s `try:` block and
the PSI falls open to `0.0`. -/
noncomputable def psiOfCols (refCol currCol : Column) : ℝ :=
  if refCol.numeric then calculate_psi refCol.values currCol.values 10 else 0

/-- The per-feature dictionary stored in `drift_results[col]`. -/
structure FeatureVerdict where
  psi : ℝ
  status : String
  ref_mean : ℚ
  curr_mean : ℚ
  ref_std : ℝ
  curr_std : ℝ

/-- One iteration of the `detect_feature_drift` loop body for an analyzed
column: compute the PSI (fall-open), classify it against the thresholds, then
build the result dictionary — whose `ref_mean` entry
(`float(self.reference_data[col].mean())`, line 103) is *outside* any
`try:` and raises on a non-numeric reference column. -/
noncomputable def featureEntry (refCol currCol : Column) (threshold : ℚ) :
    Except String (String × FeatureVerdict) := do
  let psi := psiOfCols refCol currCol
  let status :=
    if (threshold : ℝ) ≤ psi then "SIGNIFICANT_DRIFT"
    else if (1/10 : ℝ) ≤ psi then "MODERATE_DRIFT"
    else "NO_DRIFT"
  let refMean ← colMean refCol
  let currMean ← colMean currCol
  let refStd ← colStd refCol
  let currStd ← colStd currCol
  Except.ok (currCol.name,
    { psi := psi, status := status, ref_mean := refMean, curr_mean := currMean,
      ref_std := refStd, curr_std := currStd })

/-- Loop body including the reference lookup `self.reference_data[col]`
(a `KeyError` is impossible for a common column). -/
noncomputable def featureEntryFor (referenceData : DataFrame) (threshold : ℚ)
    (currCol : Column) : Except String (String × FeatureVerdict) :=
  match findCol referenceData currCol.name with
  | some refCol => featureEntry refCol currCol threshold
  | none => Except.error ("KeyError: " ++ currCol.name)

/-- The value of one feature-drift entry in the non-raising case (both columns
numeric); `featureEntry` returns exactly this dictionary then. -/
noncomputable def numericEntry (refCol currCol : Column) (threshold : ℚ) :
    String × FeatureVerdict :=
  (currCol.name,
    { psi := psiOfCols refCol currCol
      status :=
        if (threshold : ℝ) ≤ psiOfCols refCol currCol then "SIGNIFICANT_DRIFT"
        else if (1/10 : ℝ) ≤ psiOfCols refCol currCol then "MODERATE_DRIFT"
        else "NO_DRIFT"
      ref_mean := meanQ refCol.values
      curr_mean := meanQ currCol.values
      ref_std := stdQ refCol.values
      curr_std := stdQ currCol.values })

/-- The `summary` dictionary of `detect_feature_drift`. -/
structure FeatureDriftSummary where
  total_features : ℕ
  drifted_features : ℕ
  drifted_feature_names : List String
  drift_percentage : ℚ
  overall_status : String

/-- Return value of `detect_feature_drift` (the timestamp is omitted). -/
structure FeatureDriftReport where
  feature_drift : List (String × FeatureVerdict)
  summary : FeatureDriftSummary

/-- `DriftDetector.detect_feature_drift`.  The Python default threshold is
`0.2`.  Any `TypeError` raised in the loop propagates out of the function
(there is no `try:` around the loop). -/
noncomputable def detect_feature_drift (referenceData currentData : DataFrame)
    (threshold : ℚ) : Except String FeatureDriftReport := do
  let entries ← (analyzedCols referenceData currentData).mapM
    (featureEntryFor referenceData threshold)
  let drifted := (entries.filter (fun e => e.2.status == "SIGNIFICANT_DRIFT")).map
    (fun e => e.1)
  Except.ok
    { feature_drift := entries
      summary :=
        { total_features := entries.length
          drifted_features := drifted.length
          drifted_feature_names := drifted
          drift_percentage :=
            if entries.isEmpty then 0
            else (drifted.length : ℚ) / (entries.length : ℚ) * 100
          overall_status := if drifted.isEmpty then "NO_DRIFT" else "DRIFT_DETECTED" } }

/-- Result of `scipy.stats.ks_2samp` for one column. -/
structure KSResult where
  statistic : ℚ
  p_value : ℚ
deriving DecidableEq

/-- `DriftDetector.detect_statistical_drift`: the two-sample KS test itself is
scipy's and is passed in as an oracle `ks`; the column selection (current
dtype only) and the `p < alpha` classification are the repository's code.  The
Python default significance level is `0.05`. -/
def detect_statistical_drift (ks : List ℚ → List ℚ → KSResult)
    (referenceData currentData : DataFrame) (alpha : ℚ) :
    List (String × KSResult × Bool) :=
  (analyzedCols referenceData currentData).map (fun c =>
    let rvals := ((findCol referenceData c.name).map Column.values).getD []
    let r := ks rvals c.values
    (c.name, r, decide (r.p_value < alpha)))

/-- `value_counts(normalize=True).to_dict().get(v, 0)`: the proportion of
entries equal to `v` (0 for an empty column, matching the missing-key
default). -/
def valueCountsNormalize (l : List ℚ) (v : ℚ) : ℚ :=
  ((l.filter (fun x => x == v)).length : ℚ) / (l.length : ℚ)

/-- Return value of `detect_target_drift` (distributions and timestamp
omitted; the magnitude only depends on the proportions of label 1). -/
structure TargetDriftResult where
  drift_magnitude : ℚ
  status : String
deriving DecidableEq

/-- `DriftDetector.detect_target_drift`: soft-fails to an empty result when
the label column is missing on either side; otherwise the drift magnitude is
the absolute difference of the positive-class proportions, significant
strictly above 0.1. -/
def detect_target_drift (referenceData currentData : DataFrame) :
    Option TargetDriftResult :=
  match findCol currentData target_col, findCol referenceData target_col with
  | some currCol, some refCol =>
    let m := |valueCountsNormalize refCol.values 1 - valueCountsNormalize currCol.values 1|
    some { drift_magnitude := m
           status := if m > 1/10 then "SIGNIFICANT_DRIFT" else "NO_DRIFT" }
  | _, _ => none

/-- The `overall_assessment` dictionary of `comprehensive_drift_check`. -/
structure OverallAssessment where
  drift_detected : Bool
  action_required : Bool
  recommendation : String

/-- The comprehensive drift report (timestamp and data size omitted).
`performance_drift` carries the status string of
`detect_model_performance_drift` when a model, labels and a baseline were all
supplied, `none` otherwise; the model's predictions are external, so that
status is an input of the embedding. -/
structure DriftReport where
  feature_drift : FeatureDriftReport
  statistical_drift : List (String × KSResult × Bool)
  target_drift : Option TargetDriftResult
  performance_drift : Option String
  overall_assessment : OverallAssessment

/-- `DriftDetector.get_drift_recommendation`, applied to the three statuses it
reads from the report. -/
def get_drift_recommendation (featureOverallStatus : String)
    (targetStatus : Option String) (perfStatus : Option String) : String :=
  let recs : List String :=
    (if featureOverallStatus == "DRIFT_DETECTED" then
      ["RETRAIN MODEL: Significant feature drift detected"] else [])
    ++ (if targetStatus == some "SIGNIFICANT_DRIFT" then
      ["INVESTIGATE DATA: Target distribution has shifted significantly"] else [])
    ++ (match perfStatus with
        | some s =>
          if s == "SIGNIFICANT_DEGRADATION" || s == "MODERATE_DEGRADATION" then
            ["MODEL RETRAINING REQUIRED: " ++ s]
          else []
        | none => [])
  let recs := if recs.isEmpty then ["NO ACTION REQUIRED: Model is performing well"] else recs
  String.intercalate " | " recs

/-- `DriftDetector.comprehensive_drift_check` (the report persistence step is
I/O and is not modelled).  `performanceStatus` abstracts the optional
`detect_model_performance_drift` sub-report status. -/
noncomputable def comprehensive_drift_check (ks : List ℚ → List ℚ → KSResult)
    (referenceData currentData : DataFrame) (performanceStatus : Option String) :
    Except String DriftReport := do
  let fd ← detect_feature_drift referenceData currentData (1/5)
  let sd := detect_statistical_drift ks referenceData currentData (1/20)
  let td := detect_target_drift referenceData currentData
  let drift_detected := (fd.summary.overall_status == "DRIFT_DETECTED")
    || ((td.map TargetDriftResult.status) == some "SIGNIFICANT_DRIFT")
  Except.ok
    { feature_drift := fd
      statistical_drift := sd
      target_drift := td
      performance_drift := performanceStatus
      overall_assessment :=
        { drift_detected := drift_detected
          action_required := drift_detected
          recommendation := get_drift_recommendation fd.summary.overall_status
            (td.map TargetDriftResult.status) performanceStatus } }

/-- Example reference dataframe for target drift: positive rate 3/10. -/
def exTargetRef : DataFrame :=
  [{ name := "migraine_occurrence", numeric := true,
     values := List.replicate 3 1 ++ List.replicate 7 0 }]

/-- Example current dataframe for target drift: positive rate 9/20. -/
def exTargetCurr : DataFrame :=
  [{ name := "migraine_occurrence", numeric := true,
     values := List.replicate 9 1 ++ List.replicate 11 0 }]

/-- The report produced by `comprehensive_drift_check` on empty dataframes
with no performance input. -/
def emptyRunReport : DriftReport :=
  { feature_drift :=
      { feature_drift := []
        summary :=
          { total_features := 0, drifted_features := 0, drifted_feature_names := []
            drift_percentage := 0, overall_status := "NO_DRIFT" } }
    statistical_drift := []
    target_drift := none
    performance_drift := none
    overall_assessment :=
      { drift_detected := false, action_required := false
        recommendation := "NO ACTION REQUIRED: Model is performing well" } }

/-- The report produced by `comprehensive_drift_check` on empty dataframes
when the performance sub-report says SIGNIFICANT_DEGRADATION. -/
def perfOnlyReport : DriftReport :=
  { feature_drift :=
      { feature_drift := []
        summary :=
          { total_features := 0, drifted_features := 0, drifted_feature_names := []
            drift_percentage := 0, overall_status := "NO_DRIFT" } }
    statistical_drift := []
    target_drift := none
    performance_drift := some "SIGNIFICANT_DEGRADATION"
    overall_assessment :=
      { drift_detected := false, action_required := false
        recommendation := "MODEL RETRAINING REQUIRED: SIGNIFICANT_DEGRADATION" } }

/-! ### Theorems about `detect_overfitting` (claims C1, C2) -/

/-- Helper: the status field of a `detect_overfitting` verdict. -/
theorem detect_overfitting_status (train test : ClsMetrics) (threshold : ℚ) :
    (detect_overfitting train test threshold).status =
      if threshold < train.accuracy - test.accuracy ∨ threshold < train.f1 - test.f1 then
        "OVERFITTING"
      else if test.accuracy < 60/100 then "UNDERFITTING" else "GOOD_FIT" := by
  simp only [detect_overfitting, gt_iff_lt, apply_ite (Prod.fst (α := String) (β := String))]

/-- Helper: the severity field of a `detect_overfitting` verdict. -/
theorem detect_overfitting_severity (train test : ClsMetrics) (threshold : ℚ) :
    (detect_overfitting train test threshold).severity =
      if threshold < train.accuracy - test.accuracy ∨ threshold < train.f1 - test.f1 then
        (if 15/100 < train.accuracy - test.accuracy then "HIGH" else "MEDIUM")
      else if test.accuracy < 60/100 then
        (if test.accuracy < 50/100 then "HIGH" else "MEDIUM")
      else "NONE" := by
  simp only [detect_overfitting, gt_iff_lt, apply_ite (Prod.snd (α := String) (β := String))]

/-- C1 (counterexample): with train accuracy 0.50 / f1 0.90 and test accuracy
0.50 / f1 0.60, the f1 gap is 0.30 > 0.15 and the verdict is OVERFITTING, yet
the severity returned is "MEDIUM", not "HIGH": the code decides severity from
the accuracy gap alone, so the claim's rule "severity HIGH if the gap is
strictly greater than 0.15" is false for the f1 gap. -/
theorem overfit_severity_cex :
    (detect_overfitting ⟨1/2, 9/10⟩ ⟨1/2, 6/10⟩ (1/10)).status = "OVERFITTING" ∧
    15/100 < (detect_overfitting ⟨1/2, 9/10⟩ ⟨1/2, 6/10⟩ (1/10)).f1_gap ∧
    (detect_overfitting ⟨1/2, 9/10⟩ ⟨1/2, 6/10⟩ (1/10)).severity = "MEDIUM" := by
  refine ⟨?_, ?_, ?_⟩ <;> norm_num [detect_overfitting, get_recommendation]

/-- C1 (amended): status is OVERFITTING exactly when the accuracy gap or the
f1 gap exceeds the 0.10 threshold, the severity of an OVERFITTING verdict is
HIGH exactly when the *accuracy* gap is strictly greater than 0.15 (the f1 gap
never influences severity) and MEDIUM otherwise, and the boundary example
(train accuracy 0.95, test accuracy 0.80, f1 gap zero) yields OVERFITTING with
severity MEDIUM. -/
theorem overfit_classification_rule (train test : ClsMetrics) :
    ((detect_overfitting train test (1/10)).status = "OVERFITTING" ↔
      1/10 < train.accuracy - test.accuracy ∨ 1/10 < train.f1 - test.f1) ∧
    ((detect_overfitting train test (1/10)).status = "OVERFITTING" →
      (((detect_overfitting train test (1/10)).severity = "HIGH" ↔
          15/100 < train.accuracy - test.accuracy) ∧
        ((detect_overfitting train test (1/10)).severity = "MEDIUM" ↔
          ¬ 15/100 < train.accuracy - test.accuracy))) ∧
    (detect_overfitting ⟨95/100, 8/10⟩ ⟨80/100, 8/10⟩ (1/10)).status = "OVERFITTING" ∧
    (detect_overfitting ⟨95/100, 8/10⟩ ⟨80/100, 8/10⟩ (1/10)).severity = "MEDIUM" := by
  refine ⟨?_, ?_, ?_, ?_⟩
  · rw [detect_overfitting_status]
    by_cases h : 1/10 < train.accuracy - test.accuracy ∨ 1/10 < train.f1 - test.f1
    · rw [if_pos h]
      exact iff_of_true rfl h
    · rw [if_neg h]
      exact iff_of_false (by split_ifs <;> simp) h
  · intro hs
    rw [detect_overfitting_status] at hs
    have h : 1/10 < train.accuracy - test.accuracy ∨ 1/10 < train.f1 - test.f1 := by
      by_contra h
      rw [if_neg h] at hs
      exact absurd hs (by split_ifs <;> simp)
    rw [detect_overfitting_severity, if_pos h]
    constructor <;> (constructor <;> intro h15)
    · by_contra hacc; rw [if_neg hacc] at h15; exact absurd h15 (by simp)
    · rw [if_pos h15]
    · by_contra hacc
      rw [if_pos hacc] at h15; exact absurd h15 (by simp)
    · rw [if_neg h15]
  · norm_num [detect_overfitting]
  · norm_num [detect_overfitting]

/-- C1 (witness): the amended severity rule applied at train accuracy 1,
test accuracy 0.8 (accuracy gap 0.20, an OVERFITTING verdict): severity is
HIGH iff 0.15 < 0.20. -/
theorem overfit_classification_rule_witness :
    (detect_overfitting ⟨1, 1⟩ ⟨8/10, 1⟩ (1/10)).severity = "HIGH" ↔
      15/100 < (1 : ℚ) - 8/10 :=
  ((overfit_classification_rule ⟨1, 1⟩ ⟨8/10, 1⟩).2.1
    (by norm_num [detect_overfitting])).1

/-- C2: the gap check precedes the absolute-accuracy check.  If either gap
exceeds the 0.10 threshold, the status is OVERFITTING regardless of the
absolute test accuracy; UNDERFITTING is returned exactly when no gap exceeds
0.10 and test accuracy < 0.60, with severity HIGH iff test accuracy < 0.50
(else MEDIUM); and the concrete example train accuracy 0.70 / test accuracy
0.55 yields OVERFITTING even though 0.55 < 0.60. -/
theorem overfit_precedence_rule (train test : ClsMetrics) :
    ((1/10 < train.accuracy - test.accuracy ∨ 1/10 < train.f1 - test.f1) →
      (detect_overfitting train test (1/10)).status = "OVERFITTING") ∧
    ((detect_overfitting train test (1/10)).status = "UNDERFITTING" ↔
      (¬ (1/10 < train.accuracy - test.accuracy ∨ 1/10 < train.f1 - test.f1) ∧
        test.accuracy < 60/100)) ∧
    ((detect_overfitting train test (1/10)).status = "UNDERFITTING" →
      (((detect_overfitting train test (1/10)).severity = "HIGH" ↔
          test.accuracy < 50/100) ∧
        ((detect_overfitting train test (1/10)).severity = "MEDIUM" ↔
          ¬ test.accuracy < 50/100))) ∧
    (detect_overfitting ⟨70/100, 7/10⟩ ⟨55/100, 7/10⟩ (1/10)).status = "OVERFITTING" := by
  refine ⟨?_, ?_, ?_, ?_⟩
  · intro h
    rw [detect_overfitting_status, if_pos h]
  · rw [detect_overfitting_status]
    by_cases h : 1/10 < train.accuracy - test.accuracy ∨ 1/10 < train.f1 - test.f1
    · rw [if_pos h]
      exact iff_of_false (by simp) (fun hc => hc.1 h)
    · rw [if_neg h]
      by_cases h6 : test.accuracy < 60/100
      · rw [if_pos h6]
        exact iff_of_true rfl ⟨h, h6⟩
      · rw [if_neg h6]
        exact iff_of_false (by simp) (fun hc => h6 hc.2)
  · intro hs
    rw [detect_overfitting_status] at hs
    have h : ¬ (1/10 < train.accuracy - test.accuracy ∨ 1/10 < train.f1 - test.f1) := by
      intro h
      rw [if_pos h] at hs
      exact absurd hs (by simp)
    rw [if_neg h] at hs
    have h6 : test.accuracy < 60/100 := by
      by_contra h6
      rw [if_neg h6] at hs
      exact absurd hs (by simp)
    rw [detect_overfitting_severity, if_neg h, if_pos h6]
    constructor <;> (constructor <;> intro h5)
    · by_contra hc; rw [if_neg hc] at h5; exact absurd h5 (by simp)
    · rw [if_pos h5]
    · by_contra hc
      rw [if_pos hc] at h5; exact absurd h5 (by simp)
    · rw [if_neg h5]
  · norm_num [detect_overfitting]

/-- C2 (witness): the precedence rule applied at train accuracy 0.70 / test
accuracy 0.55 (accuracy gap 0.15 > 0.10) and the underfitting severity rule
applied at train accuracy 0.50 / test accuracy 0.45. -/
theorem overfit_precedence_rule_witness :
    (detect_overfitting ⟨70/100, 7/10⟩ ⟨55/100, 7/10⟩ (1/10)).status = "OVERFITTING" ∧
    ((detect_overfitting ⟨1/2, 1/2⟩ ⟨9/20, 1/2⟩ (1/10)).severity = "HIGH" ↔
      (9/20 : ℚ) < 50/100) :=
  ⟨(overfit_precedence_rule ⟨70/100, 7/10⟩ ⟨55/100, 7/10⟩).1 (Or.inl (by norm_num)),
    ((overfit_precedence_rule ⟨1/2, 1/2⟩ ⟨9/20, 1/2⟩).2.2.1
      (by norm_num [detect_overfitting])).1⟩

/-! ### Theorems about `calculate_psi` (claims C3, C4, C5) -/

theorem length_sortedInsert (x : ℚ) (l : List ℚ) :
    (sortedInsert x l).length = l.length + 1 := by
  induction l with
  | nil => rfl
  | cons y ys ih =>
    rw [sortedInsert]
    split_ifs <;> simp [ih]

theorem length_sortList (l : List ℚ) : (sortList l).length = l.length := by
  induction l with
  | nil => rfl
  | cons x xs ih => rw [sortList, List.foldr_cons, ← sortList, length_sortedInsert, ih]; rfl

theorem sortList_replicate (n : ℕ) (c : ℚ) :
    sortList (List.replicate n c) = List.replicate n c := by
  induction n with
  | zero => rfl
  | succ m ih =>
    rw [List.replicate_succ, sortList, List.foldr_cons, ← sortList, ih]
    cases m with
    | zero => rfl
    | succ k => rw [List.replicate_succ, sortedInsert, if_pos le_rfl, ← List.replicate_succ,
        ← List.replicate_succ]

theorem dedup_replicate_succ (n : ℕ) (c : ℚ) :
    (List.replicate (n + 1) c).dedup = [c] := by
  induction n with
  | zero => rfl
  | succ m ih =>
    rw [List.replicate_succ, List.dedup_cons_of_mem (by simp), ih]

theorem percentileQ_nil (q : ℚ) : percentileQ [] q = 0 := by
  simp [percentileQ, sortList]

theorem breakpointsOf_nil (bins : ℕ) : (breakpointsOf [] bins).length = 1 := by
  have hmap : (List.range (bins + 1)).map
      (fun k : ℕ => percentileQ [] (100 * (k : ℚ) / (bins : ℚ))) =
      List.replicate (bins + 1) 0 := by
    rw [List.eq_replicate_iff]
    constructor
    · simp
    · intro b hb
      obtain ⟨k, _, rfl⟩ := List.mem_map.1 hb
      exact percentileQ_nil _
  rw [breakpointsOf, hmap, uniqueQ, sortList_replicate, dedup_replicate_succ]
  rfl

theorem breakpointsOf_length_le (reference : List ℚ) (bins : ℕ) :
    (breakpointsOf reference bins).length ≤ bins + 1 := by
  have h1 : (breakpointsOf reference bins).length ≤
      (sortList ((List.range (bins + 1)).map
        (fun k : ℕ => percentileQ reference (100 * (k : ℚ) / (bins : ℚ))))).length :=
    (List.dedup_sublist _).length_le
  calc (breakpointsOf reference bins).length
      ≤ _ := h1
    _ = bins + 1 := by rw [length_sortList, List.length_map, List.length_range]

theorem psiSum_self (l : List ℚ) : psiSum l l = 0 := by
  induction l with
  | nil => rfl
  | cons c cs ih => rw [psiSum, ih, sub_self, zero_mul, zero_add]

/-- Each PSI summand `(x - y) * ln(x / y)` is non-negative for positive
proportions: the factors always share a sign. -/
theorem psiTerm_nonneg {x y : ℝ} (hx : 0 < x) (hy : 0 < y) :
    0 ≤ (x - y) * Real.log (x / y) := by
  rcases le_total y x with h | h
  · exact mul_nonneg (by linarith) (Real.log_nonneg ((one_le_div hy).2 h))
  · have hlog : Real.log (x / y) ≤ 0 :=
      Real.log_nonpos (by positivity) ((div_le_one hy).2 h)
    have heq : (x - y) * Real.log (x / y) = (y - x) * (-Real.log (x / y)) := by ring
    rw [heq]
    exact mul_nonneg (by linarith) (by linarith)

theorem psiSum_nonneg : ∀ cs rs : List ℚ,
    (∀ x ∈ cs, (0 : ℚ) < x) → (∀ x ∈ rs, (0 : ℚ) < x) → 0 ≤ psiSum cs rs
  | [], _, _, _ => le_refl 0
  | _ :: _, [], _, _ => le_refl 0
  | c :: cs, r :: rs, hc, hr => by
    rw [psiSum]
    have hc0 : (0 : ℝ) < (c : ℚ) := by exact_mod_cast hc c (by simp)
    have hr0 : (0 : ℝ) < (r : ℚ) := by exact_mod_cast hr r (by simp)
    have hrec := psiSum_nonneg cs rs (fun x hx => hc x (by simp [hx]))
      (fun x hx => hr x (by simp [hx]))
    have := psiTerm_nonneg hc0 hr0
    linarith

theorem toProps_pos (counts : List ℕ) (sampleLen bins : ℕ)
    (h : 0 < (sampleLen : ℚ) + epsilonPSI * (bins : ℚ)) :
    ∀ x ∈ toProps counts sampleLen bins, (0 : ℚ) < x := by
  intro x hx
  obtain ⟨c, _, rfl⟩ := List.mem_map.1 hx
  refine div_pos ?_ h
  have hc : (0 : ℚ) ≤ (c : ℚ) := Nat.cast_nonneg c
  have heps : (0 : ℚ) < epsilonPSI := by norm_num [epsilonPSI]
  linarith

/-- C3: for a non-degenerate reference sample (at least 3 unique percentile
breakpoints), the PSI of the reference sample against an identical current
sample is exactly 0: both histograms, and hence both smoothed proportion
vectors, coincide, so every summand `(p - p) * ln(p / p)` vanishes. -/
theorem psi_self_eq_zero (reference : List ℚ) (bins : ℕ)
    (h : 3 ≤ (breakpointsOf reference bins).length) :
    calculate_psi reference reference bins = 0 := by
  have hne : reference ≠ [] := by
    intro he
    rw [he, breakpointsOf_nil] at h
    omega
  have hemp : reference.isEmpty = false := by
    simpa using hne
  simp only [calculate_psi, psiTry, hemp, Bool.false_eq_true, if_false, Nat.not_lt.2 h,
    psiSum_self]

/-- C3 (witness): the reference sample `[0, 1, 2]` with 2 bins has the 3
unique breakpoints `[0, 1, 2]`, and its PSI against itself is 0. -/
theorem psi_self_eq_zero_witness :
    3 ≤ (breakpointsOf [0, 1, 2] 2).length ∧ calculate_psi [0, 1, 2] [0, 1, 2] 2 = 0 := by
  have h : breakpointsOf [0, 1, 2] 2 = [0, 1, 2] := by
    simp only [breakpointsOf, uniqueQ, List.range_succ, List.range_zero]
    norm_num [percentileQ, sortList, sortedInsert]
    simp
  exact ⟨by rw [h]; norm_num, psi_self_eq_zero [0, 1, 2] 2 (by rw [h]; norm_num)⟩

/-- C4: the PSI score is non-negative for every pair of samples and every bin
count: the error branch and the degenerate branch return 0, and otherwise
every summand pairs two positive smoothed proportions. -/
theorem psi_nonneg (reference current : List ℚ) (bins : ℕ) :
    0 ≤ calculate_psi reference current bins := by
  by_cases hemp : reference.isEmpty
  · simp [calculate_psi, psiTry, hemp]
  · by_cases hlen : (breakpointsOf reference bins).length < 3
    · simp [calculate_psi, psiTry, hemp, hlen]
    · have hbins : 2 ≤ bins := by
        have := breakpointsOf_length_le reference bins
        omega
      have hrefne : reference ≠ [] := by
        intro he
        rw [he] at hemp
        exact hemp rfl
      have hrefpos : 0 < (reference.length : ℚ) + epsilonPSI * (bins : ℚ) := by
        have h1 : 1 ≤ reference.length := List.length_pos.2 hrefne
        have h1q : (1 : ℚ) ≤ (reference.length : ℚ) := by exact_mod_cast h1
        have heps : (0 : ℚ) ≤ epsilonPSI * (bins : ℚ) :=
          mul_nonneg (by norm_num [epsilonPSI]) (Nat.cast_nonneg _)
        linarith
      have hcurrpos : 0 < (current.length : ℚ) + epsilonPSI * (bins : ℚ) := by
        have h1 : (0 : ℚ) ≤ (current.length : ℚ) := Nat.cast_nonneg _
        have h2 : (2 : ℚ) ≤ (bins : ℚ) := by exact_mod_cast hbins
        have heps : (0 : ℚ) < epsilonPSI := by norm_num [epsilonPSI]
        nlinarith
      simp only [calculate_psi, psiTry, hemp, Bool.false_eq_true, if_false, hlen]
      exact psiSum_nonneg _ _
        (toProps_pos _ _ _ hcurrpos) (toProps_pos _ _ _ hrefpos)

/-- C5: `calculate_psi` never propagates an exception.  Any exception raised
inside the `try:` block (e.g. the empty reference sample) is caught and
converted to 0.0, and fewer than 3 unique breakpoints also yields 0.0. -/
theorem psi_fail_open (reference current : List ℚ) (bins : ℕ) :
    (∀ e, psiTry reference current bins = Except.error e →
      calculate_psi reference current bins = 0) ∧
    ((breakpointsOf reference bins).length < 3 →
      calculate_psi reference current bins = 0) := by
  constructor
  · intro e he
    simp [calculate_psi, he]
  · intro h
    by_cases hemp : reference.isEmpty
    · simp [calculate_psi, psiTry, hemp]
    · simp [calculate_psi, psiTry, hemp, h]

/-- C5 (witness): the empty reference sample raises inside the `try:` block
and the PSI falls open to 0; the constant sample `[5, 5, 5]` has a single
unique breakpoint (< 3) and also yields 0. -/
theorem psi_fail_open_witness :
    calculate_psi [] [1] 10 = 0 ∧ calculate_psi [5, 5, 5] [1, 2] 2 = 0 := by
  constructor
  · exact (psi_fail_open [] [1] 10).1 "TypeError: percentile of an empty sample" rfl
  · refine (psi_fail_open [5, 5, 5] [1, 2] 2).2 ?_
    have h : breakpointsOf [5, 5, 5] 2 = [5] := by
      simp only [breakpointsOf, uniqueQ, List.range_succ, List.range_zero]
      norm_num [percentileQ, sortList, sortedInsert]
      simp
    rw [h]
    norm_num

/-! ### Theorems about `detect_target_drift` (claim C7) -/

/-- C7: `detect_target_drift` soft-fails to an empty result when the label
column is missing on either side; otherwise the drift magnitude is the
absolute difference of the positive-class (label 1) proportions, the status is
SIGNIFICANT_DRIFT exactly when the magnitude is strictly greater than 0.1 (and
NO_DRIFT otherwise), and reference positive rate 0.30 against current positive
rate 0.45 gives magnitude 0.15 and SIGNIFICANT_DRIFT. -/
theorem target_drift_rule (referenceData currentData : DataFrame) :
    ((findCol currentData target_col = none ∨ findCol referenceData target_col = none) →
      detect_target_drift referenceData currentData = none) ∧
    (∀ refCol currCol, findCol referenceData target_col = some refCol →
      findCol currentData target_col = some currCol →
      ∃ r, detect_target_drift referenceData currentData = some r ∧
        r.drift_magnitude =
          |valueCountsNormalize refCol.values 1 - valueCountsNormalize currCol.values 1| ∧
        (r.status = "SIGNIFICANT_DRIFT" ↔ 1/10 < r.drift_magnitude) ∧
        (r.status = "NO_DRIFT" ↔ ¬ 1/10 < r.drift_magnitude)) ∧
    detect_target_drift exTargetRef exTargetCurr =
      some { drift_magnitude := 3/20, status := "SIGNIFICANT_DRIFT" } := by
  refine ⟨?_, ?_, ?_⟩
  · intro h
    rw [detect_target_drift]
    rcases h with h | h
    · rw [h]
    · rw [h]
      cases hcc : findCol currentData target_col <;> rfl
  · intro refCol currCol href hcurr
    rw [detect_target_drift, href, hcurr]
    refine ⟨_, rfl, rfl, ?_, ?_⟩
    · by_cases hm : 1/10 <
        |valueCountsNormalize refCol.values 1 - valueCountsNormalize currCol.values 1|
      · rw [if_pos hm]
        exact iff_of_true rfl hm
      · rw [if_neg hm]
        exact iff_of_false (by simp) hm
    · by_cases hm : 1/10 <
        |valueCountsNormalize refCol.values 1 - valueCountsNormalize currCol.values 1|
      · rw [if_pos hm]
        exact iff_of_false (by simp) (by simpa using hm)
      · rw [if_neg hm]
        exact iff_of_true rfl hm
  · have hr : valueCountsNormalize (List.replicate 3 (1 : ℚ) ++ List.replicate 7 0) 1
        = 3/10 := by
      rw [valueCountsNormalize]
      norm_num [List.filter_append, List.filter_replicate]
    have hc : valueCountsNormalize (List.replicate 9 (1 : ℚ) ++ List.replicate 11 0) 1
        = 9/20 := by
      rw [valueCountsNormalize]
      norm_num [List.filter_append, List.filter_replicate]
    rw [detect_target_drift]
    have h1 : findCol exTargetCurr target_col =
        some { name := "migraine_occurrence", numeric := true,
               values := List.replicate 9 1 ++ List.replicate 11 0 } := rfl
    have h2 : findCol exTargetRef target_col =
        some { name := "migraine_occurrence", numeric := true,
               values := List.replicate 3 1 ++ List.replicate 7 0 } := rfl
    rw [h1, h2]
    have hm : |(3 : ℚ)/10 - 9/20| = 3/20 := by norm_num
    simp only [hr, hc, hm]
    norm_num

/-- C7 (witness): the soft-failure branch applied to empty dataframes, and the
normal branch applied to the 0.30 / 0.45 example. -/
theorem target_drift_rule_witness :
    detect_target_drift [] [] = none ∧
    detect_target_drift exTargetRef exTargetCurr =
      some { drift_magnitude := 3/20, status := "SIGNIFICANT_DRIFT" } :=
  ⟨(target_drift_rule [] []).1 (Or.inl rfl), (target_drift_rule exTargetRef exTargetCurr).2.2⟩

/-! ### Theorems about `detect_feature_drift` (claims C6, C10) -/

theorem mem_analyzedCols {referenceData currentData : DataFrame} {c : Column} :
    c ∈ analyzedCols referenceData currentData ↔
      c ∈ currentData ∧ (findCol referenceData c.name).isSome = true ∧
        c.name ≠ target_col ∧ c.numeric = true := by
  simp only [analyzedCols, commonCols, List.mem_filter, Bool.and_eq_true, bne_iff_ne]
  tauto

theorem mapM_ok_of_forall {α β : Type} (g : α → Except String β) (f : α → β) :
    ∀ l : List α, (∀ c ∈ l, g c = Except.ok (f c)) →
      l.mapM g = Except.ok (l.map f)
  | [], _ => rfl
  | a :: l, h => by
    rw [List.mapM_cons, h a (by simp),
      mapM_ok_of_forall g f l (fun c hc => h c (by simp [hc]))]
    rfl

theorem mapM_error_of_mem {α β : Type} (g : α → Except String β) :
    ∀ (l : List α) (c : α), c ∈ l → (∃ e, g c = Except.error e) →
      ∃ e2, l.mapM g = Except.error e2
  | a :: l, c, hc, ⟨e, he⟩ => by
    cases hga : g a with
    | error e1 => exact ⟨e1, by rw [List.mapM_cons, hga]; rfl⟩
    | ok b =>
      rcases List.mem_cons.1 hc with rfl | hcl
      · rw [hga] at he
        exact absurd he (by simp)
      · obtain ⟨e2, ht⟩ := mapM_error_of_mem g l c hcl ⟨e, he⟩
        exact ⟨e2, by rw [List.mapM_cons, hga, ht]; rfl⟩

theorem featureEntry_ok (refCol currCol : Column) (threshold : ℚ)
    (hr : refCol.numeric = true) (hc : currCol.numeric = true) :
    featureEntry refCol currCol threshold =
      Except.ok (numericEntry refCol currCol threshold) := by
  rw [featureEntry, numericEntry]
  simp [colMean, colStd, hr, hc, Bind.bind, Except.bind]

theorem featureEntryFor_ok (referenceData : DataFrame) (threshold : ℚ)
    (c refCol : Column) (href : findCol referenceData c.name = some refCol)
    (hrnum : refCol.numeric = true) (hcnum : c.numeric = true) :
    featureEntryFor referenceData threshold c =
      Except.ok (numericEntry refCol c threshold) := by
  rw [featureEntryFor, href]
  exact featureEntry_ok refCol c threshold hrnum hcnum

theorem numericEntry_status_sig (refCol currCol : Column) (threshold : ℚ) :
    (numericEntry refCol currCol threshold).2.status = "SIGNIFICANT_DRIFT" ↔
      (threshold : ℝ) ≤ (numericEntry refCol currCol threshold).2.psi := by
  rw [numericEntry]
  by_cases h : (threshold : ℝ) ≤ psiOfCols refCol currCol
  · rw [if_pos h]
    exact iff_of_true rfl h
  · rw [if_neg h]
    refine iff_of_false ?_ h
    split_ifs <;> simp

/-- C6: on a reference dataframe whose columns are all numeric (the
well-formedness the training CSV guarantees) and a current dataframe with
unique column names, `detect_feature_drift` never raises, no matter what
non-numeric columns the current dataframe contains: those are excluded from
the per-feature results, `total_features` counts exactly the shared numeric
non-label columns, `drift_percentage` is `drifted/total*100` over that
filtered set (0 when it is empty), and `overall_status` is DRIFT_DETECTED
exactly when some analyzed feature has PSI at or above the 0.2 threshold, and
NO_DRIFT exactly otherwise. -/
theorem feature_drift_rule (referenceData currentData : DataFrame)
    (href : ∀ c ∈ referenceData, c.numeric = true)
    (hnd : (currentData.map Column.name).Nodup) :
    ∃ rep, detect_feature_drift referenceData currentData (1/5) = Except.ok rep ∧
      rep.summary.total_features = (analyzedCols referenceData currentData).length ∧
      (∀ c ∈ currentData, c.numeric = false →
        ∀ p ∈ rep.feature_drift, p.1 ≠ c.name) ∧
      rep.summary.drift_percentage =
        (if rep.summary.total_features = 0 then 0
         else (rep.summary.drifted_features : ℚ) / (rep.summary.total_features : ℚ) * 100) ∧
      (rep.summary.overall_status = "DRIFT_DETECTED" ↔
        ∃ p ∈ rep.feature_drift, (1/5 : ℝ) ≤ p.2.psi) ∧
      (rep.summary.overall_status = "NO_DRIFT" ↔
        ¬ ∃ p ∈ rep.feature_drift, (1/5 : ℝ) ≤ p.2.psi) := by
  have hok : ∀ c ∈ analyzedCols referenceData currentData,
      featureEntryFor referenceData (1/5) c =
        Except.ok (numericEntry ((findCol referenceData c.name).getD c) c (1/5)) := by
    intro c hc
    obtain ⟨hcc, hsome, hname, hnum⟩ := mem_analyzedCols.1 hc
    obtain ⟨rc, hrc⟩ := Option.isSome_iff_exists.1 hsome
    have hrcmem : rc ∈ referenceData := List.mem_of_find?_eq_some hrc
    rw [hrc, Option.getD_some]
    exact featureEntryFor_ok referenceData (1/5) c rc hrc (href rc hrcmem) hnum
  have hmapM := mapM_ok_of_forall (featureEntryFor referenceData (1/5))
    (fun c => numericEntry ((findCol referenceData c.name).getD c) c (1/5))
    (analyzedCols referenceData currentData) hok
  set l := analyzedCols referenceData currentData with hl
  set f := fun c => numericEntry ((findCol referenceData c.name).getD c) c (1/5) with hf
  set entries := l.map f with hentries
  set drifted := (entries.filter (fun e => e.2.status == "SIGNIFICANT_DRIFT")).map
    (fun e => e.1) with hdrifted
  have hstat : ∀ p ∈ entries, (p.2.status = "SIGNIFICANT_DRIFT" ↔ (1/5 : ℝ) ≤ p.2.psi) := by
    intro p hp
    rw [hentries] at hp
    simp only [List.mem_map] at hp
    obtain ⟨a, _, rfl⟩ := hp
    simp only [hf]
    have h := numericEntry_status_sig ((findCol referenceData a.name).getD a) a (1/5)
    push_cast at h
    exact h
  refine ⟨{ feature_drift := entries
            summary :=
              { total_features := entries.length
                drifted_features := drifted.length
                drifted_feature_names := drifted
                drift_percentage :=
                  if entries.isEmpty then 0
                  else (drifted.length : ℚ) / (entries.length : ℚ) * 100
                overall_status := if drifted.isEmpty then "NO_DRIFT" else "DRIFT_DETECTED" } },
    ?_, ?_, ?_, ?_, ?_⟩
  · rw [detect_feature_drift, hmapM]
    rfl
  · dsimp only
    rw [hentries]
    exact List.length_map l f
  · intro c hcc hcnum p hp
    dsimp only at hp
    rw [hentries] at hp
    simp only [List.mem_map] at hp
    obtain ⟨a, ha, rfl⟩ := hp
    obtain ⟨hac, _, _, hanum⟩ := mem_analyzedCols.1 ha
    intro heq
    have heqname : a.name = c.name := heq
    have hace : a = c := List.inj_on_of_nodup_map hnd hac hcc heqname
    rw [hace, hcnum] at hanum
    cases hanum
  · dsimp only
    by_cases he : entries.isEmpty
    · rw [if_pos he, if_pos]
      rw [List.isEmpty_iff] at he
      rw [he]
      rfl
    · rw [if_neg he, if_neg]
      rw [List.isEmpty_iff] at he
      simpa [List.length_eq_zero] using he
  · dsimp only
    by_cases hd : drifted.isEmpty
    · have hno : ¬ ∃ p ∈ entries, (1/5 : ℝ) ≤ p.2.psi := by
        rintro ⟨p, hp, hpsi⟩
        have hsig : p.2.status == "SIGNIFICANT_DRIFT" := by
          simp only [beq_iff_eq]
          exact (hstat p hp).2 hpsi
        rw [hdrifted, List.isEmpty_iff, List.map_eq_nil_iff, List.filter_eq_nil_iff] at hd
        exact hd p hp hsig
      rw [if_pos hd]
      exact ⟨iff_of_false (by simp) hno, iff_of_true rfl hno⟩
    · have hyes : ∃ p ∈ entries, (1/5 : ℝ) ≤ p.2.psi := by
        rw [hdrifted, List.isEmpty_iff, List.map_eq_nil_iff, List.filter_eq_nil_iff] at hd
        push_neg at hd
        obtain ⟨p, hp, hsig⟩ := hd
        refine ⟨p, hp, (hstat p hp).1 ?_⟩
        simpa [beq_iff_eq] using hsig
      rw [if_neg hd]
      exact ⟨iff_of_true rfl hyes, iff_of_false (by simp) (not_not_intro hyes)⟩

/-- C6 (witness): reference `[a]` all numeric, current `[a, b]` with unique
names and a non-numeric column `b`. -/
theorem feature_drift_rule_witness :
    ∃ rep, detect_feature_drift ([⟨"a", true, [0]⟩] : DataFrame)
        ([⟨"a", true, [0]⟩, ⟨"b", false, []⟩] : DataFrame) (1/5) = Except.ok rep ∧
      rep.summary.total_features =
        (analyzedCols ([⟨"a", true, [0]⟩] : DataFrame)
          ([⟨"a", true, [0]⟩, ⟨"b", false, []⟩] : DataFrame)).length ∧
      (∀ c ∈ ([⟨"a", true, [0]⟩, ⟨"b", false, []⟩] : DataFrame), c.numeric = false →
        ∀ p ∈ rep.feature_drift, p.1 ≠ c.name) ∧
      rep.summary.drift_percentage =
        (if rep.summary.total_features = 0 then 0
         else (rep.summary.drifted_features : ℚ) / (rep.summary.total_features : ℚ) * 100) ∧
      (rep.summary.overall_status = "DRIFT_DETECTED" ↔
        ∃ p ∈ rep.feature_drift, (1/5 : ℝ) ≤ p.2.psi) ∧
      (rep.summary.overall_status = "NO_DRIFT" ↔
        ¬ ∃ p ∈ rep.feature_drift, (1/5 : ℝ) ≤ p.2.psi) :=
  feature_drift_rule ([⟨"a", true, [0]⟩] : DataFrame)
    ([⟨"a", true, [0]⟩, ⟨"b", false, []⟩] : DataFrame)
    (by intro c hc; simp only [List.mem_singleton] at hc; rw [hc])
    (by simp)

/-- C10 (counterexample): a shared non-label column `a` that is numeric in the
current dataframe but non-numeric in the reference dataframe is selected for
analysis, but `detect_feature_drift` then raises a `TypeError` while computing
`float(self.reference_data[col].mean())` (line 103, outside any `try:`), so
no report is produced — the column is *not* reported with status NO_DRIFT. -/
theorem current_only_dtype_filter_cex :
    detect_feature_drift ([⟨"a", false, [1, 2, 3]⟩] : DataFrame)
      ([⟨"a", true, [1, 2]⟩] : DataFrame) (1/5) =
      Except.error "TypeError: could not compute mean of non-numeric column a" := by
  rfl

/-- C10 (amended): the numeric-dtype filter of `detect_feature_drift` and
`detect_statistical_drift` (both select `analyzedCols`) inspects only the
current dataframe's column, so a shared non-label column that is numeric in
the current dataframe but non-numeric in the reference dataframe is still
selected for analysis, and its PSI computation falls open to 0.0; but
`detect_feature_drift` then raises while computing the reference column's
mean (which is outside any `try:`), so the function propagates an exception
instead of reporting the column with status NO_DRIFT. -/
theorem current_only_dtype_filter (referenceData currentData : DataFrame)
    (c refCol : Column) (hc : c ∈ currentData) (hnum : c.numeric = true)
    (hname : c.name ≠ target_col) (hfind : findCol referenceData c.name = some refCol)
    (hrefnum : refCol.numeric = false) :
    c ∈ analyzedCols referenceData currentData ∧
    psiOfCols refCol c = 0 ∧
    ∃ e, detect_feature_drift referenceData currentData (1/5) = Except.error e := by
  have hmem : c ∈ analyzedCols referenceData currentData :=
    mem_analyzedCols.2 ⟨hc, by rw [hfind]; rfl, hname, hnum⟩
  refine ⟨hmem, by rw [psiOfCols, hrefnum]; rfl, ?_⟩
  have hce : colMean refCol =
      Except.error ("TypeError: could not compute mean of non-numeric column "
        ++ refCol.name) := by
    rw [colMean, if_neg]
    simp [hrefnum]
  have herr : ∃ e, featureEntryFor referenceData (1/5) c = Except.error e := by
    refine ⟨"TypeError: could not compute mean of non-numeric column " ++ refCol.name, ?_⟩
    rw [featureEntryFor, hfind]
    simp [featureEntry, hce, Bind.bind, Except.bind]
  obtain ⟨e2, h2⟩ := mapM_error_of_mem (featureEntryFor referenceData (1/5)) _ c hmem herr
  refine ⟨e2, ?_⟩
  rw [detect_feature_drift, h2]
  rfl

/-- C10 (witness): the amended rule applied to the one-column dataframes of
the counterexample. -/
theorem current_only_dtype_filter_witness :
    (⟨"a", true, [1, 2]⟩ : Column) ∈ analyzedCols ([⟨"a", false, [1, 2, 3]⟩] : DataFrame)
        ([⟨"a", true, [1, 2]⟩] : DataFrame) ∧
    psiOfCols ⟨"a", false, [1, 2, 3]⟩ ⟨"a", true, [1, 2]⟩ = 0 ∧
    ∃ e, detect_feature_drift ([⟨"a", false, [1, 2, 3]⟩] : DataFrame)
      ([⟨"a", true, [1, 2]⟩] : DataFrame) (1/5) = Except.error e :=
  current_only_dtype_filter ([⟨"a", false, [1, 2, 3]⟩] : DataFrame)
    ([⟨"a", true, [1, 2]⟩] : DataFrame) ⟨"a", true, [1, 2]⟩ ⟨"a", false, [1, 2, 3]⟩
    (List.Mem.head _) rfl (by decide) rfl rfl

/-! ### Theorems about `comprehensive_drift_check` (claims C8, C9) -/

theorem intercalate_singleton (sep a : String) : String.intercalate sep [a] = a := rfl

/-- C8: in every successfully produced report, `drift_detected` is true
exactly when the feature-drift overall status is DRIFT_DETECTED or the
target-drift status is SIGNIFICANT_DRIFT, `action_required` equals
`drift_detected`, and the recommendation is the " | "-joined concatenation of
the triggered-rule messages, or the single NO ACTION message when no rule
triggered. -/
theorem comprehensive_assessment_rule (ks : List ℚ → List ℚ → KSResult)
    (referenceData currentData : DataFrame) (perf : Option String) (rep : DriftReport)
    (h : comprehensive_drift_check ks referenceData currentData perf = Except.ok rep) :
    (rep.overall_assessment.drift_detected = true ↔
      (rep.feature_drift.summary.overall_status = "DRIFT_DETECTED" ∨
        rep.target_drift.map TargetDriftResult.status = some "SIGNIFICANT_DRIFT")) ∧
    rep.overall_assessment.action_required = rep.overall_assessment.drift_detected ∧
    rep.overall_assessment.recommendation =
      (let msgs : List String :=
        (if rep.feature_drift.summary.overall_status = "DRIFT_DETECTED" then
          ["RETRAIN MODEL: Significant feature drift detected"] else []) ++
        (if rep.target_drift.map TargetDriftResult.status = some "SIGNIFICANT_DRIFT" then
          ["INVESTIGATE DATA: Target distribution has shifted significantly"] else []) ++
        (match rep.performance_drift with
          | some s =>
            if s = "SIGNIFICANT_DEGRADATION" ∨ s = "MODERATE_DEGRADATION" then
              ["MODEL RETRAINING REQUIRED: " ++ s]
            else []
          | none => []);
        if msgs = [] then "NO ACTION REQUIRED: Model is performing well"
        else String.intercalate " | " msgs) := by
  cases hfd : detect_feature_drift referenceData currentData (1/5) with
  | error e =>
    rw [comprehensive_drift_check, hfd] at h
    cases h
  | ok fd =>
    rw [comprehensive_drift_check, hfd] at h
    have hrep : rep =
        { feature_drift := fd
          statistical_drift := detect_statistical_drift ks referenceData currentData (1/20)
          target_drift := detect_target_drift referenceData currentData
          performance_drift := perf
          overall_assessment :=
            { drift_detected := (fd.summary.overall_status == "DRIFT_DETECTED")
                || (((detect_target_drift referenceData currentData).map
                      TargetDriftResult.status) == some "SIGNIFICANT_DRIFT")
              action_required := (fd.summary.overall_status == "DRIFT_DETECTED")
                || (((detect_target_drift referenceData currentData).map
                      TargetDriftResult.status) == some "SIGNIFICANT_DRIFT")
              recommendation := get_drift_recommendation fd.summary.overall_status
                ((detect_target_drift referenceData currentData).map
                  TargetDriftResult.status) perf } } := by
      cases h
      rfl
    subst hrep
    refine ⟨by simp [Bool.or_eq_true, beq_iff_eq], rfl, ?_⟩
    dsimp only
    by_cases h1 : fd.summary.overall_status = "DRIFT_DETECTED" <;>
      by_cases h2 : (detect_target_drift referenceData currentData).map
        TargetDriftResult.status = some "SIGNIFICANT_DRIFT" <;>
      cases perf with
      | none => simp [get_drift_recommendation, h1, h2, intercalate_singleton]
      | some s =>
        by_cases h3 : s = "SIGNIFICANT_DEGRADATION" ∨ s = "MODERATE_DEGRADATION" <;>
          simp [get_drift_recommendation, h1, h2, h3, intercalate_singleton]

/-- C8 (witness): the assessment rule applied to the run on empty dataframes
with no performance input. -/
theorem comprehensive_assessment_rule_witness :
    (emptyRunReport.overall_assessment.drift_detected = true ↔
      (emptyRunReport.feature_drift.summary.overall_status = "DRIFT_DETECTED" ∨
        emptyRunReport.target_drift.map TargetDriftResult.status =
          some "SIGNIFICANT_DRIFT")) ∧
    emptyRunReport.overall_assessment.action_required =
      emptyRunReport.overall_assessment.drift_detected ∧
    emptyRunReport.overall_assessment.recommendation =
      (let msgs : List String :=
        (if emptyRunReport.feature_drift.summary.overall_status = "DRIFT_DETECTED" then
          ["RETRAIN MODEL: Significant feature drift detected"] else []) ++
        (if emptyRunReport.target_drift.map TargetDriftResult.status =
            some "SIGNIFICANT_DRIFT" then
          ["INVESTIGATE DATA: Target distribution has shifted significantly"] else []) ++
        (match emptyRunReport.performance_drift with
          | some s =>
            if s = "SIGNIFICANT_DEGRADATION" ∨ s = "MODERATE_DEGRADATION" then
              ["MODEL RETRAINING REQUIRED: " ++ s]
            else []
          | none => []);
        if msgs = [] then "NO ACTION REQUIRED: Model is performing well"
        else String.intercalate " | " msgs) :=
  comprehensive_assessment_rule (fun _ _ => ⟨0, 0⟩) [] [] none emptyRunReport rfl

/-- C9: `drift_detected` and `action_required` depend only on the feature-
and target-drift statuses — two runs on the same dataframes that differ in
their KS-test oracle and their performance-drift status produce the same
`drift_detected`, and `action_required` always equals `drift_detected`; in
particular a run whose performance drift is SIGNIFICANT_DEGRADATION but with
no feature or target drift has `action_required = false` while its
recommendation still says MODEL RETRAINING REQUIRED. -/
theorem assessment_noninterference :
    (∀ (ks1 ks2 : List ℚ → List ℚ → KSResult) (referenceData currentData : DataFrame)
      (perf1 perf2 : Option String) (r1 r2 : DriftReport),
      comprehensive_drift_check ks1 referenceData currentData perf1 = Except.ok r1 →
      comprehensive_drift_check ks2 referenceData currentData perf2 = Except.ok r2 →
      r1.overall_assessment.drift_detected = r2.overall_assessment.drift_detected ∧
      r1.overall_assessment.action_required = r1.overall_assessment.drift_detected ∧
      r2.overall_assessment.action_required = r2.overall_assessment.drift_detected) ∧
    comprehensive_drift_check (fun _ _ => ⟨0, 0⟩) [] [] (some "SIGNIFICANT_DEGRADATION") =
      Except.ok perfOnlyReport ∧
    perfOnlyReport.overall_assessment.action_required = false ∧
    perfOnlyReport.overall_assessment.recommendation =
      "MODEL RETRAINING REQUIRED: SIGNIFICANT_DEGRADATION" := by
  refine ⟨?_, rfl, rfl, rfl⟩
  intro ks1 ks2 referenceData currentData perf1 perf2 r1 r2 h1 h2
  cases hfd : detect_feature_drift referenceData currentData (1/5) with
  | error e =>
    rw [comprehensive_drift_check, hfd] at h1
    cases h1
  | ok fd =>
    rw [comprehensive_drift_check, hfd] at h1
    rw [comprehensive_drift_check, hfd] at h2
    cases h1
    cases h2
    exact ⟨rfl, rfl, rfl⟩

/-- C9 (witness): the noninterference rule applied to the empty-dataframe run
with KS oracles `(0,0)` / `(1,1)` and performance inputs `none` /
`SIGNIFICANT_DEGRADATION`. -/
theorem assessment_noninterference_witness :
    emptyRunReport.overall_assessment.drift_detected =
      perfOnlyReport.overall_assessment.drift_detected ∧
    emptyRunReport.overall_assessment.action_required =
      emptyRunReport.overall_assessment.drift_detected ∧
    perfOnlyReport.overall_assessment.action_required =
      perfOnlyReport.overall_assessment.drift_detected :=
  assessment_noninterference.1 (fun _ _ => ⟨0, 0⟩) (fun _ _ => ⟨1, 1⟩) [] [] none
    (some "SIGNIFICANT_DEGRADATION") emptyRunReport perfOnlyReport rfl rfl

end Migraine
